import Mathlib

/-!
Verification development for the realtime-subs subtitle pipeline
(`src/server/index.js`): the hallucination filter, the WebSocket
broadcast bus, and the `/transcribe` orchestrator, embedded shallowly.
JavaScript strings are modelled as Lean strings; the relevant pieces of
JavaScript string semantics (the `trim` whitespace set, case-insensitive
ASCII matching, the character classes of the deny-list regular
expressions) are defined explicitly below.
-/

namespace RealtimeSubs

/-- The JavaScript whitespace set used by `String.prototype.trim` and by
the regex class `\s`: tab, LF, VT, FF, CR, space, NBSP, Ogham space,
the U+2000–U+200A range, LS, PS, NNBSP, MMSP, ideographic space, BOM. -/
def jsWhitespace (c : Char) : Bool :=
  let n := c.toNat
  n = 0x9 || n = 0xa || n = 0xb || n = 0xc || n = 0xd || n = 0x20 ||
  n = 0xa0 || n = 0x1680 || (0x2000 ≤ n && n ≤ 0x200a) ||
  n = 0x2028 || n = 0x2029 || n = 0x202f || n = 0x205f || n = 0x3000 ||
  n = 0xfeff

/-- JavaScript line terminators, excluded by the regex class `.`. -/
def isLineTerminator (c : Char) : Bool :=
  let n := c.toNat
  n = 0xa || n = 0xd || n = 0x2028 || n = 0x2029

/-- The regex class `\d`: the ASCII digits. -/
def isAsciiDigit (c : Char) : Bool :=
  0x30 ≤ c.toNat && c.toNat ≤ 0x39

/-- ASCII lowercasing; for the all-ASCII deny-list patterns this is
exactly the canonicalisation JavaScript applies under the `i` flag. -/
def lowerAscii (c : Char) : Char :=
  if 0x41 ≤ c.toNat && c.toNat ≤ 0x5a then Char.ofNat (c.toNat + 32) else c

/-- `String.prototype.trim`: strip `jsWhitespace` from both ends. -/
def jsTrim (s : String) : String :=
  String.mk (((s.data.dropWhile jsWhitespace).reverse.dropWhile jsWhitespace).reverse)

/-- Character classes occurring in the deny-list patterns. -/
inductive CharCls where
  | dotC   : CharCls
  | digitC : CharCls
  | spaceC : CharCls
deriving DecidableEq, Repr

/-- Which characters a class accepts (JavaScript semantics, no `s` flag). -/
def clsMatch : CharCls → Char → Bool
  | .dotC, c => !(isLineTerminator c)
  | .digitC, c => isAsciiDigit c
  | .spaceC, c => jsWhitespace c

/-- Abstract syntax of the deny-list regular expressions: literal runs
(matched case-insensitively), `X*`, `X+`, `X{n}` over a character class,
and sequencing. -/
inductive RE where
  | lit : List Char → RE
  | star : CharCls → RE
  | plus : CharCls → RE
  | rep : CharCls → Nat → RE
  | seq : RE → RE → RE
deriving DecidableEq, Repr

/-- Match a literal run case-insensitively at the front of the input,
returning the remainder on success. -/
def litRem : List Char → List Char → Option (List Char)
  | [], cs => some cs
  | _ :: _, [] => none
  | p :: ps, c :: cs =>
    if lowerAscii p = lowerAscii c then litRem ps cs else none

/-- All remainders reachable by consuming zero or more class characters. -/
def starRems (k : CharCls) : List Char → List (List Char)
  | [] => [[]]
  | c :: cs => (c :: cs) :: (if clsMatch k c then starRems k cs else [])

/-- Consume exactly `n` class characters. -/
def repRem (k : CharCls) : Nat → List Char → Option (List Char)
  | 0, cs => some cs
  | _ + 1, [] => none
  | n + 1, c :: cs => if clsMatch k c then repRem k n cs else none

/-- All remainders after matching `re` at the front of the input. -/
def matchRems : RE → List Char → List (List Char)
  | .lit p, cs =>
    match litRem p cs with
    | some r => [r]
    | none => []
  | .star k, cs => starRems k cs
  | .plus k, cs =>
    match cs with
    | [] => []
    | c :: rest => if clsMatch k c then starRems k rest else []
  | .rep k n, cs =>
    match repRem k n cs with
    | some r => [r]
    | none => []
  | .seq a b, cs => (matchRems a cs).flatMap (matchRems b)

/-- `re` matches the whole input (for `^...$`-anchored patterns). -/
def fullMatch (re : RE) (cs : List Char) : Bool :=
  (matchRems re cs).any List.isEmpty

/-- `re` matches starting at some position (`RegExp.prototype.test` for an
unanchored pattern). -/
def searchRE (re : RE) : List Char → Bool
  | [] => !(matchRems re []).isEmpty
  | c :: cs => !(matchRems re (c :: cs)).isEmpty || searchRE re cs

/-- One deny-list rule: its regex and whether it is `^...$`-anchored. -/
structure DenyPattern where
  anchored : Bool
  re : RE
deriving DecidableEq, Repr

/-- `pattern.test(input)`. -/
def patternTest (p : DenyPattern) (cs : List Char) : Bool :=
  if p.anchored then fullMatch p.re cs else searchRE p.re cs

/-- The fixed ordered deny-list `HALLUZINATION_PATTERNS`, in source
order: `/copyright.*\d{4}/i`, `/untertitel.*von/i`,
`/thanks for watching/i`, `/vielen dank.*zuschauen/i`, `/subscribe/i`,
`/like.*comment/i`, `/stephanie geiges/i`, `/^wdr\s*\d+$/i`, `/^ard$/i`,
`/^zdf$/i`. -/
def HALLUZINATION_PATTERNS : List DenyPattern :=
  [ ⟨false, .seq (.lit "copyright".data) (.seq (.star .dotC) (.rep .digitC 4))⟩,
    ⟨false, .seq (.lit "untertitel".data) (.seq (.star .dotC) (.lit "von".data))⟩,
    ⟨false, .lit "thanks for watching".data⟩,
    ⟨false, .seq (.lit "vielen dank".data) (.seq (.star .dotC) (.lit "zuschauen".data))⟩,
    ⟨false, .lit "subscribe".data⟩,
    ⟨false, .seq (.lit "like".data) (.seq (.star .dotC) (.lit "comment".data))⟩,
    ⟨false, .lit "stephanie geiges".data⟩,
    ⟨true, .seq (.lit "wdr".data) (.seq (.star .spaceC) (.plus .digitC))⟩,
    ⟨true, .lit "ard".data⟩,
    ⟨true, .lit "zdf".data⟩ ]

/-- `isHalluzination` from `src/server/index.js`: accept-all guard for
short input, then first-match-wins scan of the deny-list on the trimmed
text. -/
def isHalluzination (text : String) : Bool :=
  if text = "" ∨ (jsTrim text).length < 3 then true
  else HALLUZINATION_PATTERNS.any (fun p => patternTest p (jsTrim text).data)

/-! ## Subtitle bus (`wss`, `clients`, `broadcastSubtitle`) -/

/-- A WebSocket viewer channel: its identity and its `readyState`
(`1` is `WebSocket.OPEN`). -/
structure Channel where
  id : Nat
  readyState : Nat
deriving DecidableEq, Repr

/-- A subtitle payload `\x7b type, text \x7d` as passed to
`broadcastSubtitle`. -/
structure Payload where
  type : String
  text : String
deriving DecidableEq, Repr

/-- Hexadecimal digit, lowercase, as produced by `JSON.stringify`
escapes. -/
def hexDigit (n : Nat) : Char :=
  if n < 10 then Char.ofNat (0x30 + n) else Char.ofNat (0x57 + n)

/-- Four-digit hexadecimal rendering of a code point below 0x10000. -/
def hex4 (n : Nat) : String :=
  String.mk [hexDigit (n / 4096 % 16), hexDigit (n / 256 % 16),
             hexDigit (n / 16 % 16), hexDigit (n % 16)]

/-- `JSON.stringify` escaping of one character inside a string value. -/
def jsonEscapeChar (c : Char) : String :=
  if c = '"' then "\\\""
  else if c = '\\' then "\\\\"
  else if c.toNat = 0x8 then "\\b"
  else if c.toNat = 0xc then "\\f"
  else if c = '\n' then "\\n"
  else if c = '\r' then "\\r"
  else if c = '\t' then "\\t"
  else if c.toNat < 0x20 then "\\u" ++ hex4 c.toNat
  else String.singleton c

/-- `JSON.stringify` of a string value, quotes included. -/
def jsonString (s : String) : String :=
  "\"" ++ String.join (s.data.map jsonEscapeChar) ++ "\""

/-- `JSON.stringify(payload)` for the two-field subtitle payload:
`\x7b"type":...,"text":...\x7d`. -/
def stringifyPayload (p : Payload) : String :=
  "\x7b\"type\":" ++ jsonString p.type ++ ",\"text\":" ++ jsonString p.text ++ "\x7d"

/-- One delivered message: which channel received which serialized
string. -/
structure Delivery where
  channelId : Nat
  message : String
deriving DecidableEq, Repr

/-- Result of one broadcast: the registry after the call, the deliveries
made, and the `count` the function logs. -/
structure BroadcastResult where
  clients : List Channel
  deliveries : List Delivery
  count : Nat
deriving DecidableEq, Repr

/-- The `for (const client of clients)` loop of `broadcastSubtitle`:
send `msg` to every channel whose `readyState` is `1`, counting sends;
other channels are passed over. -/
def broadcastLoop (msg : String) : List Channel → List Delivery × Nat
  | [] => ([], 0)
  | c :: rest =>
    if c.readyState == 1 then
      let r := broadcastLoop msg rest
      (⟨c.id, msg⟩ :: r.1, r.2 + 1)
    else broadcastLoop msg rest

/-- `broadcastSubtitle`: serialize the payload once, then fan out to the
registry. The registry itself is only read. -/
def broadcastSubtitle (clients : List Channel) (payload : Payload) :
    BroadcastResult :=
  let msg := stringifyPayload payload
  let r := broadcastLoop msg clients
  ⟨clients, r.1, r.2⟩

/-! ## Connection lifecycle handlers (`wss.on('connection')`)

The registry `clients` is a JavaScript `Set`; it is modelled as a
duplicate-free list of channel identifiers in insertion order. -/

/-- `Set.prototype.add`. -/
def setAdd (clients : List Nat) (ws : Nat) : List Nat :=
  if ws ∈ clients then clients else clients ++ [ws]

/-- `Set.prototype.delete`. -/
def setDelete (clients : List Nat) (ws : Nat) : List Nat :=
  clients.filter (fun x => x ≠ ws)

/-- The `connection` handler: `clients.add(ws)`. -/
def onConnection (clients : List Nat) (ws : Nat) : List Nat :=
  setAdd clients ws

/-- The `close` handler registered per connection: `clients.delete(ws)`. -/
def onCloseHandler (clients : List Nat) (ws : Nat) : List Nat :=
  setDelete clients ws

/-- The `error` handler registered per connection: it only logs, so the
registry is returned unchanged. -/
def onErrorHandler (clients : List Nat) (_ws : Nat) : List Nat :=
  clients

/-! ## Provider clients (`transcribeWithWhisper`, `translateToEnglish`)

Each wrapper issues exactly one `fetch`; the provider's answer is an
input of the model. For a non-`ok` answer the code reads the body text
and throws; for an `ok` answer it reads the parsed JSON. -/

/-- The provider's answer to the Whisper transcription call: HTTP
outcome, raw body text (read when not `ok`), and the `text` field of the
parsed JSON body (`none` when the field is missing or `null`). -/
structure WhisperResponse where
  ok : Bool
  status : Nat
  bodyText : String
  text : Option String
deriving DecidableEq, Repr

/-- The provider's answer to the chat-completion translation call:
HTTP outcome, raw body text, and `choices[0].message.content` of the
parsed JSON body. -/
structure ChatResponse where
  ok : Bool
  status : Nat
  bodyText : String
  content : String
deriving DecidableEq, Repr

/-- `transcribeWithWhisper`: throw a `Whisper API Error (status): body`
on a non-`ok` response; otherwise `result.text || ''` (the empty string
when the field is absent, `null`, or empty). -/
def transcribeWithWhisper (resp : WhisperResponse) : Except String String :=
  if resp.ok then .ok (resp.text.getD "")
  else .error ("Whisper API Error (" ++ toString resp.status ++ "): " ++ resp.bodyText)

/-- `translateToEnglish`: throw a `Translation API Error (status): body`
on a non-`ok` response; otherwise the message content, trimmed. -/
def translateToEnglish (resp : ChatResponse) : Except String String :=
  if resp.ok then .ok (jsTrim resp.content)
  else .error ("Translation API Error (" ++ toString resp.status ++ "): " ++ resp.bodyText)

/-! ## The `/transcribe` orchestrator -/

/-- The uploaded audio file as multer presents it (`req.file`): the
in-memory buffer. A request with no `audio` part has no file at all. -/
structure AudioFile where
  buffer : List Nat
deriving DecidableEq, Repr

/-- The JSON body of the HTTP response of `/transcribe` (the `details`
stack trace accompanying an error body is runtime metadata and is not
modelled). -/
inductive RespBody where
  | errorBody : String → RespBody
  | emptyResult : RespBody
  | filteredResult : String → RespBody
  | successResult : String → String → RespBody
deriving DecidableEq, Repr

/-- HTTP status and body returned to the caller of `/transcribe`. -/
structure HttpResult where
  status : Nat
  body : RespBody
deriving DecidableEq, Repr

/-- One scheduled publish: the delay in milliseconds (0 for the
immediate broadcast, 1500 for the `setTimeout` one) and the payload. -/
structure ScheduledEvent where
  delayMs : Nat
  payload : Payload
deriving DecidableEq, Repr

/-- Which outbound provider requests the handler issued, in order. -/
inductive ProviderCall where
  | whisperCall : ProviderCall
  | chatCall : ProviderCall
deriving DecidableEq, Repr

/-- Everything observable about one run of the `/transcribe` handler:
the HTTP response, the subtitle events published (with their delays),
and the provider calls issued. -/
structure TranscribeOutcome where
  response : HttpResult
  events : List ScheduledEvent
  calls : List ProviderCall
deriving DecidableEq, Repr

/-- The `POST /transcribe` handler. Inputs: `req.file`, the
`OPENAI_API_KEY` environment value (absent, or present with some
string), and the two provider answers the run would receive. Mirrors
the source order: missing-file check, key check (an empty key is falsy),
transcription, no-speech check, hallucination filter, translation, then
the immediate `translation` broadcast and the 1500 ms delayed `final`
broadcast; a thrown provider error is caught and returned as a 500
error body. -/
def transcribeHandler (file : Option AudioFile) (apiKey : Option String)
    (whisper : WhisperResponse) (chat : ChatResponse) : TranscribeOutcome :=
  match file with
  | none => ⟨⟨400, .errorBody "Keine Audio-Datei erhalten"⟩, [], []⟩
  | some _ =>
    if apiKey = none ∨ apiKey = some "" then
      ⟨⟨500, .errorBody "OPENAI_API_KEY nicht gesetzt"⟩, [], []⟩
    else
      match transcribeWithWhisper whisper with
      | .error msg => ⟨⟨500, .errorBody msg⟩, [], [.whisperCall]⟩
      | .ok germanText =>
        if germanText = "" ∨ jsTrim germanText = "" then
          ⟨⟨200, .emptyResult⟩, [], [.whisperCall]⟩
        else if isHalluzination germanText then
          ⟨⟨200, .filteredResult germanText⟩, [], [.whisperCall]⟩
        else
          match translateToEnglish chat with
          | .error msg => ⟨⟨500, .errorBody msg⟩, [], [.whisperCall, .chatCall]⟩
          | .ok englishText =>
            ⟨⟨200, .successResult germanText englishText⟩,
             [⟨0, ⟨"translation", englishText⟩⟩, ⟨1500, ⟨"final", englishText⟩⟩],
             [.whisperCall, .chatCall]⟩

/-! ## Sample inputs for concrete runs -/

/-- A non-empty uploaded clip. -/
def audioSample : AudioFile := ⟨[1, 2, 3]⟩

/-- An uploaded clip whose buffer is empty (zero bytes). -/
def audioEmpty : AudioFile := ⟨[]⟩

/-- Whisper succeeds with an ordinary sentence. -/
def whisperHallo : WhisperResponse := ⟨true, 200, "", some "Hallo, wie geht es dir?"⟩

/-- Whisper succeeds with an empty transcript. -/
def whisperSilence : WhisperResponse := ⟨true, 200, "", some ""⟩

/-- Whisper succeeds but the JSON body has no `text` field. -/
def whisperNoText : WhisperResponse := ⟨true, 200, "", none⟩

/-- Whisper succeeds with a known hallucination phrase. -/
def whisperFiltered : WhisperResponse := ⟨true, 200, "", some "Untertitel von XYZ"⟩

/-- The chat endpoint succeeds with a translation. -/
def chatHello : ChatResponse := ⟨true, 200, "", "Hello, how are you?"⟩

/-- The chat endpoint fails with HTTP 500. -/
def chatFail : ChatResponse := ⟨false, 500, "translation down", ""⟩

/-! ## Helper lemmas -/

/-- The broadcast loop delivers the message to exactly the channels of
the registry whose `readyState` is 1, in registry order, and counts
them. -/
theorem broadcastLoop_eq (msg : String) (l : List Channel) :
    broadcastLoop msg l =
      ((l.filter (fun c => c.readyState == 1)).map
        (fun c => (⟨c.id, msg⟩ : Delivery)),
       (l.filter (fun c => c.readyState == 1)).length) := by
  induction l with
  | nil => rfl
  | cons c rest ih =>
    cases hc : (c.readyState == 1) with
    | false => simp [broadcastLoop, hc, ih, List.filter_cons]
    | true => simp [broadcastLoop, hc, ih, List.filter_cons]

/-- `jsTrim` of the empty string is the empty string. -/
theorem jsTrim_empty : jsTrim "" = "" := rfl

/-! ## Claim theorems -/

/-- C1: for a submission whose transcript is non-empty (and not
whitespace-only), passes the hallucination filter, and whose translation
call succeeds, exactly two subtitle events are published, both carrying
the identical translated text, the first with type `translation`
immediately (delay 0) and the second with type `final` after the fixed
1500 ms delay, in that order. -/
theorem c1_accepted_transcript_two_events (f : AudioFile)
    (k germanText englishText : String)
    (w : WhisperResponse) (c : ChatResponse)
    (hk : k ≠ "")
    (hw : transcribeWithWhisper w = .ok germanText)
    (hne : ¬(germanText = "" ∨ jsTrim germanText = ""))
    (hfil : isHalluzination germanText = false)
    (hc : translateToEnglish c = .ok englishText) :
    (transcribeHandler (some f) (some k) w c).events =
      [⟨0, ⟨"translation", englishText⟩⟩, ⟨1500, ⟨"final", englishText⟩⟩] := by
  have hkey : ¬((some k : Option String) = none ∨ (some k : Option String) = some "") := by
    simp [hk]
  simp only [transcribeHandler, hw, hc, if_neg hkey, if_neg hne, hfil,
    Bool.false_eq_true, if_false]

/-- Witness for C1 at a concrete accepted submission. -/
theorem c1_accepted_transcript_two_events_witness :
    ("sk-test" ≠ "") ∧
    transcribeWithWhisper whisperHallo = .ok "Hallo, wie geht es dir?" ∧
    ¬("Hallo, wie geht es dir?" = "" ∨ jsTrim "Hallo, wie geht es dir?" = "") ∧
    isHalluzination "Hallo, wie geht es dir?" = false ∧
    translateToEnglish chatHello = .ok "Hello, how are you?" ∧
    (transcribeHandler (some audioSample) (some "sk-test") whisperHallo chatHello).events =
      [⟨0, ⟨"translation", "Hello, how are you?"⟩⟩,
       ⟨1500, ⟨"final", "Hello, how are you?"⟩⟩] :=
  ⟨by decide, rfl, by decide, by decide, rfl,
   c1_accepted_transcript_two_events audioSample "sk-test" _ _ whisperHallo chatHello
     (by decide) rfl (by decide) (by decide) rfl⟩

/-- C2: publishing is a total function that never fails: with zero
registered channels it delivers to none, only channels whose
`readyState` is open (1) at the moment of iteration receive the event —
the others are skipped without error — and the event is serialized once,
every delivery carrying that same serialized message. -/
theorem c2_publish_never_fails (clients : List Channel) (payload : Payload) :
    (broadcastSubtitle [] payload).deliveries = [] ∧
    (broadcastSubtitle [] payload).count = 0 ∧
    (broadcastSubtitle clients payload).deliveries =
      (clients.filter (fun c => c.readyState == 1)).map
        (fun c => (⟨c.id, stringifyPayload payload⟩ : Delivery)) ∧
    (∀ d ∈ (broadcastSubtitle clients payload).deliveries,
      d.message = stringifyPayload payload) := by
  refine ⟨rfl, rfl, ?_, ?_⟩
  · simp [broadcastSubtitle, broadcastLoop_eq]
  · intro d hd
    simp [broadcastSubtitle, broadcastLoop_eq] at hd
    obtain ⟨c, -, rfl⟩ := hd
    rfl

/-- Witness for C2: a registry with one open, one closed and one
connecting channel delivers to the open one only. -/
theorem c2_publish_never_fails_witness :
    (broadcastSubtitle [] ⟨"translation", "hi"⟩).deliveries = [] ∧
    (broadcastSubtitle [] ⟨"translation", "hi"⟩).count = 0 ∧
    (broadcastSubtitle [⟨1, 1⟩, ⟨2, 3⟩, ⟨3, 0⟩] ⟨"translation", "hi"⟩).deliveries =
      (([⟨1, 1⟩, ⟨2, 3⟩, ⟨3, 0⟩] : List Channel).filter
        (fun c => c.readyState == 1)).map
        (fun c => (⟨c.id, stringifyPayload ⟨"translation", "hi"⟩⟩ : Delivery)) ∧
    (∀ d ∈ (broadcastSubtitle [⟨1, 1⟩, ⟨2, 3⟩, ⟨3, 0⟩] ⟨"translation", "hi"⟩).deliveries,
      d.message = stringifyPayload ⟨"translation", "hi"⟩) :=
  c2_publish_never_fails [⟨1, 1⟩, ⟨2, 3⟩, ⟨3, 0⟩] ⟨"translation", "hi"⟩

/-- C3: every string whose trimmed form has fewer than 3 characters is
classified as a hallucination. -/
theorem c3_short_text_rejected (s : String)
    (h : (jsTrim s).length < 3) : isHalluzination s = true := by
  unfold isHalluzination
  rw [if_pos (Or.inr h)]

/-- Witness for C3 at the one-character string `"a"`. -/
theorem c3_short_text_rejected_witness :
    (jsTrim "a").length < 3 ∧ isHalluzination "a" = true :=
  ⟨by decide, c3_short_text_rejected "a" (by decide)⟩

/-- C4: for a string of at least 3 trimmed characters, the filter
returns true exactly when the trimmed text matches some rule of the
fixed ordered deny-list (first match wins, later rules unevaluated —
`List.any` short-circuits); a string matching no rule is accepted. -/
theorem c4_denylist_decides (s : String) (h : 3 ≤ (jsTrim s).length) :
    (isHalluzination s = true ↔
      ∃ p ∈ HALLUZINATION_PATTERNS, patternTest p (jsTrim s).data = true) := by
  have hs : ¬(s = "" ∨ (jsTrim s).length < 3) := by
    rintro (rfl | hlt)
    · exact absurd h (by decide)
    · omega
  unfold isHalluzination
  rw [if_neg hs]
  simp [List.any_eq_true]

/-- Witness for C4 at an ordinary accepted sentence. -/
theorem c4_denylist_decides_witness :
    3 ≤ (jsTrim "Hallo, wie geht es dir?").length ∧
    (isHalluzination "Hallo, wie geht es dir?" = true ↔
      ∃ p ∈ HALLUZINATION_PATTERNS,
        patternTest p (jsTrim "Hallo, wie geht es dir?").data = true) :=
  ⟨by decide, c4_denylist_decides "Hallo, wie geht es dir?" (by decide)⟩

/-- C5: for a submission whose transcript is empty or whitespace-only,
or rejected by the hallucination filter, zero subtitle events are
published and the call returns success (200): empty-strings body in the
no-speech case, empty strings plus the rejected raw transcript under the
`filtered` field in the filtered case. -/
theorem c5_silent_outcomes (f : AudioFile) (k g : String)
    (w : WhisperResponse) (c : ChatResponse)
    (hk : k ≠ "") (hw : transcribeWithWhisper w = .ok g) :
    ((g = "" ∨ jsTrim g = "") →
      transcribeHandler (some f) (some k) w c =
        ⟨⟨200, .emptyResult⟩, [], [.whisperCall]⟩) ∧
    (¬(g = "" ∨ jsTrim g = "") → isHalluzination g = true →
      transcribeHandler (some f) (some k) w c =
        ⟨⟨200, .filteredResult g⟩, [], [.whisperCall]⟩) := by
  have hkey : ¬((some k : Option String) = none ∨ (some k : Option String) = some "") := by
    simp [hk]
  constructor
  · intro hg
    simp only [transcribeHandler, hw, if_neg hkey, if_pos hg]
  · intro hg hfil
    simp only [transcribeHandler, hw, if_neg hkey, if_neg hg, hfil, if_true]

/-- Witness for C5: a hallucinated transcript is filtered with a 200
response carrying the rejected text, and no events. -/
theorem c5_silent_outcomes_witness :
    ("sk-test" ≠ "") ∧
    transcribeWithWhisper whisperFiltered = .ok "Untertitel von XYZ" ∧
    ((("Untertitel von XYZ" = "" ∨ jsTrim "Untertitel von XYZ" = "") →
      transcribeHandler (some audioSample) (some "sk-test") whisperFiltered chatHello =
        ⟨⟨200, .emptyResult⟩, [], [.whisperCall]⟩) ∧
    (¬("Untertitel von XYZ" = "" ∨ jsTrim "Untertitel von XYZ" = "") →
      isHalluzination "Untertitel von XYZ" = true →
      transcribeHandler (some audioSample) (some "sk-test") whisperFiltered chatHello =
        ⟨⟨200, .filteredResult "Untertitel von XYZ"⟩, [], [.whisperCall]⟩)) :=
  ⟨by decide, rfl,
   c5_silent_outcomes audioSample "sk-test" _ whisperFiltered chatHello (by decide) rfl⟩

/-- C6 counterexample: an uploaded clip that is present but empty (zero
bytes) is NOT rejected with BadRequest — the handler only checks
`!req.file` — and a provider call is issued for it: with a key set and a
silent provider answer the run returns 200 after calling the
transcription provider. -/
theorem c6_counterexample_empty_clip_not_rejected :
    (transcribeHandler (some audioEmpty) (some "sk-test") whisperSilence chatHello).response.status ≠ 400 ∧
    (transcribeHandler (some audioEmpty) (some "sk-test") whisperSilence chatHello).calls ≠ [] := by
  constructor
  · intro h
    simp [transcribeHandler, transcribeWithWhisper, whisperSilence, jsTrim] at h
  · intro h
    simp [transcribeHandler, transcribeWithWhisper, whisperSilence, jsTrim] at h

/-- C6 (amended): a submission with no audio file fails fast with
BadRequest (400) whatever the credential, and one with the provider
credential absent fails with a Misconfigured server error (500); in
both cases no provider call is issued and no subtitle event is
published. An empty-but-present clip is not rejected. -/
theorem c6_missing_inputs_fail_fast (f : AudioFile) (k : Option String)
    (w : WhisperResponse) (c : ChatResponse) :
    transcribeHandler none k w c =
      ⟨⟨400, .errorBody "Keine Audio-Datei erhalten"⟩, [], []⟩ ∧
    transcribeHandler (some f) none w c =
      ⟨⟨500, .errorBody "OPENAI_API_KEY nicht gesetzt"⟩, [], []⟩ := by
  refine ⟨rfl, ?_⟩
  simp [transcribeHandler]

/-- C7: a non-success answer from either provider makes the run fail
with the thrown `... API Error (status): body` message carrying the
upstream status and body, returned as a 500 error response; the failing
call is issued exactly once (no retry) and no subtitle event is
published. -/
theorem c7_provider_error_fails_submission (f : AudioFile) (k g : String)
    (w : WhisperResponse) (c : ChatResponse) (hk : k ≠ "") :
    (w.ok = false →
      transcribeHandler (some f) (some k) w c =
        ⟨⟨500, .errorBody
            ("Whisper API Error (" ++ toString w.status ++ "): " ++ w.bodyText)⟩,
         [], [.whisperCall]⟩) ∧
    (transcribeWithWhisper w = .ok g → ¬(g = "" ∨ jsTrim g = "") →
      isHalluzination g = false → c.ok = false →
      transcribeHandler (some f) (some k) w c =
        ⟨⟨500, .errorBody
            ("Translation API Error (" ++ toString c.status ++ "): " ++ c.bodyText)⟩,
         [], [.whisperCall, .chatCall]⟩) := by
  have hkey : ¬((some k : Option String) = none ∨ (some k : Option String) = some "") := by
    simp [hk]
  constructor
  · intro hwf
    have hw : transcribeWithWhisper w =
        .error ("Whisper API Error (" ++ toString w.status ++ "): " ++ w.bodyText) := by
      simp [transcribeWithWhisper, hwf]
    simp only [transcribeHandler, hw, if_neg hkey]
  · intro hw hg hfil hcf
    have hc : translateToEnglish c =
        .error ("Translation API Error (" ++ toString c.status ++ "): " ++ c.bodyText) := by
      simp [translateToEnglish, hcf]
    simp only [transcribeHandler, hw, hc, if_neg hkey, if_neg hg, hfil,
      Bool.false_eq_true, if_false]

/-- Witness for C7: the translation provider answers HTTP 500 after a
successful, accepted transcription. -/
theorem c7_provider_error_fails_submission_witness :
    ("sk-test" ≠ "") ∧
    ((whisperHallo.ok = false →
      transcribeHandler (some audioSample) (some "sk-test") whisperHallo chatFail =
        ⟨⟨500, .errorBody
            ("Whisper API Error (" ++ toString whisperHallo.status ++ "): " ++ whisperHallo.bodyText)⟩,
         [], [.whisperCall]⟩) ∧
     (transcribeWithWhisper whisperHallo = .ok "Hallo, wie geht es dir?" →
      ¬("Hallo, wie geht es dir?" = "" ∨ jsTrim "Hallo, wie geht es dir?" = "") →
      isHalluzination "Hallo, wie geht es dir?" = false → chatFail.ok = false →
      transcribeHandler (some audioSample) (some "sk-test") whisperHallo chatFail =
        ⟨⟨500, .errorBody
            ("Translation API Error (" ++ toString chatFail.status ++ "): " ++ chatFail.bodyText)⟩,
         [], [.whisperCall, .chatCall]⟩)) :=
  ⟨by decide,
   c7_provider_error_fails_submission audioSample "sk-test" "Hallo, wie geht es dir?"
     whisperHallo chatFail (by decide)⟩

/-- C8 counterexample: a send failure triggers only the per-connection
`error` handler, which merely logs — the channel stays in the registry,
refuting removal on send failure. -/
theorem c8_counterexample_send_failure_keeps_channel :
    onErrorHandler [7] 7 = [7] ∧ 7 ∈ onErrorHandler [7] 7 := by
  exact ⟨rfl, by decide⟩

/-- C8 (amended): the `close` handler removes the channel exactly once —
after it the channel is gone while every other channel remains — and the
removal is idempotent (deleting an already-removed channel changes
nothing and does not fail); the `error` handler alone leaves the
registry unchanged, so a send failure by itself removes nothing. -/
theorem c8_close_removes_error_does_not (clients : List Nat) (ws : Nat) :
    ws ∉ onCloseHandler clients ws ∧
    onCloseHandler (onCloseHandler clients ws) ws = onCloseHandler clients ws ∧
    (∀ x ∈ clients, x ≠ ws → x ∈ onCloseHandler clients ws) ∧
    onErrorHandler clients ws = clients := by
  refine ⟨?_, ?_, ?_, rfl⟩
  · simp [onCloseHandler, setDelete]
  · simp [onCloseHandler, setDelete, List.filter_filter]
  · intro x hx hne
    simp [onCloseHandler, setDelete, hx, hne]

/-- Witness for C8 (amended) on a two-channel registry. -/
theorem c8_close_removes_error_does_not_witness :
    7 ∉ onCloseHandler [3, 7] 7 ∧
    onCloseHandler (onCloseHandler [3, 7] 7) 7 = onCloseHandler [3, 7] 7 ∧
    (∀ x ∈ [3, 7], x ≠ 7 → x ∈ onCloseHandler [3, 7] 7) ∧
    onErrorHandler [3, 7] 7 = [3, 7] :=
  c8_close_removes_error_does_not [3, 7] 7

/-- C9: publishing never mutates the registry: `broadcastSubtitle`
returns the channel set it was given, whatever the states of the
channels — non-open channels are skipped, never removed. -/
theorem c9_broadcast_preserves_registry (clients : List Channel) (payload : Payload) :
    (broadcastSubtitle clients payload).clients = clients := rfl

/-- C10: a successful transcription answer whose JSON body lacks the
`text` field (or carries `null`) yields the empty transcript, and the
submission takes the no-speech outcome: 200 with empty-strings body, no
events. -/
theorem c10_missing_text_field_is_no_speech (f : AudioFile) (k : String)
    (w : WhisperResponse) (c : ChatResponse)
    (hk : k ≠ "") (hok : w.ok = true) (htext : w.text = none) :
    transcribeWithWhisper w = .ok "" ∧
    transcribeHandler (some f) (some k) w c =
      ⟨⟨200, .emptyResult⟩, [], [.whisperCall]⟩ := by
  have hkey : ¬((some k : Option String) = none ∨ (some k : Option String) = some "") := by
    simp [hk]
  have hw : transcribeWithWhisper w = .ok "" := by
    simp [transcribeWithWhisper, hok, htext]
  refine ⟨hw, ?_⟩
  simp only [transcribeHandler, hw, if_neg hkey]
  simp

/-- Witness for C10 at a concrete text-less provider answer. -/
theorem c10_missing_text_field_is_no_speech_witness :
    ("sk-test" ≠ "") ∧ whisperNoText.ok = true ∧ whisperNoText.text = none ∧
    transcribeWithWhisper whisperNoText = .ok "" ∧
    transcribeHandler (some audioSample) (some "sk-test") whisperNoText chatHello =
      ⟨⟨200, .emptyResult⟩, [], [.whisperCall]⟩ :=
  ⟨by decide, rfl, rfl,
   (c10_missing_text_field_is_no_speech audioSample "sk-test" whisperNoText chatHello
      (by decide) rfl rfl).1,
   (c10_missing_text_field_is_no_speech audioSample "sk-test" whisperNoText chatHello
      (by decide) rfl rfl).2⟩

end RealtimeSubs
